import Mathlib

/-!
Verification development for the writers-dashboard repository.

The whole application lives in src/src/WritersDashboard.jsx.  This file gives
a shallow embedding of its persistence layer, its state-store operations, its
derived statistics and its focus timer, and proves (or refutes) the frozen
claims about them.

Modelling conventions:
* JavaScript values flowing through JSON.parse / JSON.stringify and through
  the dynamically typed setters are embedded as a `Json` inductive; numbers
  in this application are integers, so `Json.num` carries an `Int`.
  JSON.stringify followed by JSON.parse is the identity at this value level
  (no `undefined`, `NaN` or functions appear in the persisted bundle), so
  export/import and the remote read are modelled on `Json` values directly.
* The typed records (`Project`, `Session`, `Idea`) embed the JSDoc typedefs at
  lines 25-27 of WritersDashboard.jsx; machine numbers are `Int` (JavaScript
  `parseInt` results are integers, possibly negative).
* ISO calendar-day strings (`toISOString().slice(0,10)`) are kept as `String`
  values; the function `i ↦ daysAgo(i).toISOString().slice(0,10)` is
  abstracted as a parameter `dayStr : Nat → String`.
-/

namespace WritersDashboard

/-- JSON values, as produced by JSON.parse.  Numbers are integers here
(the dashboard only ever stores integer counts). -/
inductive Json where
  | null
  | bool (b : Bool)
  | num (n : Int)
  | str (s : String)
  | arr (elems : List Json)
  | obj (fields : List (String × Json))

/-- Association lookup used for JavaScript property access `o.key` on a
parsed object. -/
def assocFind : List (String × Json) → String → Option Json
  | [], _ => none
  | (k, v) :: rest, key => if k = key then some v else assocFind rest key

/-- JavaScript property access `j.key`: `some` the stored value, `none` for
`undefined` (missing key or non-object receiver). -/
def Json.getField : Json → String → Option Json
  | .obj fields, key => assocFind fields key
  | _, _ => none

/-- JavaScript truthiness of a parsed value.  `0`, `""`, `null`, `false` are
falsy; every array and object (including empty ones) is truthy. -/
def truthy : Json → Bool
  | .null => false
  | .bool b => b
  | .num n => n != 0
  | .str s => s != ""
  | .arr _ => true
  | .obj _ => true

/-- The JavaScript idiom `x.f || d`: the field when present and truthy,
otherwise the default. -/
def jsOr (v : Option Json) (d : Json) : Json :=
  match v with
  | some j => if truthy j then j else d
  | none => d

/-- The in-memory state bundle `{projects, sessions, ideas, dailyGoal}` at the
dynamically typed level (the level at which import/export and the cloud
bridge operate). -/
structure JBundle where
  projects : Json
  sessions : Json
  ideas : Json
  dailyGoal : Json

/-- exportJSON (WritersDashboard.jsx lines 173-178): the serialized object is
`{projects, sessions, ideas, dailyGoal}`; serialization to bytes and parsing
back are the identity at the `Json` value level. -/
def exportJSON (b : JBundle) : Json :=
  .obj [("projects", b.projects), ("sessions", b.sessions),
        ("ideas", b.ideas), ("dailyGoal", b.dailyGoal)]

/-- The four setters `setProjects(d.projects||[]); setSessions(d.sessions||[]);
setIdeas(d.ideas||[]); setDailyGoal(d.dailyGoal||500)`.  This exact statement
appears three times in the source: importJSON (line 184), the cloud load
effect (lines 97-100) and the initial-state memo (lines 65-68). -/
def bundleFromJson (d : Json) : JBundle :=
  { projects := jsOr (d.getField "projects") (.arr [])
    sessions := jsOr (d.getField "sessions") (.arr [])
    ideas := jsOr (d.getField "ideas") (.arr [])
    dailyGoal := jsOr (d.getField "dailyGoal") (.num 500) }

/-- importJSON (lines 179-189), successful-parse branch: the parsed document
replaces all four top-level values with the `|| default` fallbacks. -/
def importJSON (d : Json) : JBundle :=
  bundleFromJson d

/-- Recognizer for `Json.arr` (a JavaScript array value). -/
def Json.isArr : Json → Bool
  | .arr _ => true
  | _ => false

/-- Contents of the local cache slot `localStorage["writers_dashboard_v1"]`:
absent (getItem returns null, or the stored string is empty — both are
replaced by the literal string of an empty object before parsing), stored
text that fails to parse, or text that parses to a `Json` value. -/
inductive Cache where
  | absent
  | malformed
  | stored (j : Json)

/-- loadStore (lines 33-36): parse the cache slot, catching parse failures by
returning an empty object; an absent slot parses the empty-object literal. -/
def loadStore : Cache → Json
  | .absent => .obj []
  | .malformed => .obj []
  | .stored j => j

/-- The bundle with three empty lists and dailyGoal 500 — both the startup
fallback (lines 64-69) and the placeholder written remotely on a not-found
read (line 105). -/
def emptyBundle : JBundle :=
  { projects := .arr [], sessions := .arr [], ideas := .arr [],
    dailyGoal := .num 500 }

/-- Result of the single remote read
`supabase.from("app_state").select("data").eq("user_id", userId).single()`
(lines 83-87): an optional returned row and an optional error code. -/
structure QueryRes where
  row : Option Json
  errorCode : Option String

/-- The expression `data?.data` (line 95): the "data" column of the returned
row, `none` when no row came back or the column is missing. -/
def rowData (r : QueryRes) : Option Json :=
  match r.row with
  | some j => j.getField "data"
  | none => none

/-- The guard `cloud && typeof cloud === "object"` (line 96): truthy values of
JavaScript type "object", i.e. arrays and plain objects (null is falsy and
is excluded by the `cloud &&` conjunct even though typeof null is
"object"). -/
def isObjectLike : Json → Bool
  | .arr _ => true
  | .obj _ => true
  | _ => false

/-- Observable remote write performed by the load effect: nothing, or the
upsert of the empty initial bundle (lines 103-107). -/
inductive CloudEffect where
  | noWrite
  | upsertEmpty

/-- The cloud load effect body (lines 79-110) as a function of the local
bundle and the one read result: a non-PGRST116 error is only logged and
leaves everything unchanged; a found object-like document replaces local
state wholesale through the `|| default` setters; otherwise the empty
initial bundle is upserted remotely and local state is untouched. -/
def cloudLoad (localState : JBundle) (res : QueryRes) : JBundle × CloudEffect :=
  match res.errorCode with
  | some c =>
    if c ≠ "PGRST116" then (localState, .noWrite)
    else
      match rowData res with
      | some cloud =>
        if isObjectLike cloud then (bundleFromJson cloud, .noWrite)
        else (localState, .upsertEmpty)
      | none => (localState, .upsertEmpty)
  | none =>
    match rowData res with
    | some cloud =>
      if isObjectLike cloud then (bundleFromJson cloud, .noWrite)
      else (localState, .upsertEmpty)
    | none => (localState, .upsertEmpty)

/-- Project record (JSDoc typedef, line 25).  Optional JSDoc fields are
`Option`; `archived` is absent (`none`) until the archive action sets it. -/
structure Project where
  id : String
  title : String
  description : Option String
  targetWords : Int
  deadline : Option String
  status : String
  createdAt : String
  archived : Option Bool
deriving DecidableEq

/-- Session record (JSDoc typedef, line 26). -/
structure Session where
  id : String
  projectId : Option String
  date : String
  minutes : Int
  words : Int
  notes : String
deriving DecidableEq

/-- Idea record (JSDoc typedef, line 27). -/
structure Idea where
  id : String
  text : String
  tags : List String
  projectId : Option String
  createdAt : String
  pinned : Option Bool
deriving DecidableEq

/-- The payload NewProjectDialog passes to addProject (line 461):
`{ title, description, targetWords, deadline }`.  A `status` slot is carried
so the spread-override in addProject is expressible: whatever status the
input carries, the object literal `{...p, ..., status: "Drafting"}` wins. -/
structure ProjectInput where
  title : String
  description : Option String
  targetWords : Int
  deadline : Option String
  status : Option String
deriving DecidableEq

/-- The record appended by addProject (line 159):
`{ ...p, id: uid(), createdAt: new Date().toISOString(), status: "Drafting" }`.
The keys of the literal are written after the spread of `p`, so `id`,
`createdAt` and `status` override anything in `p`. -/
def newProject (uid createdAt : String) (p : ProjectInput) : Project :=
  { id := uid
    title := p.title
    description := p.description
    targetWords := p.targetWords
    deadline := p.deadline
    status := "Drafting"
    createdAt := createdAt
    archived := none }

/-- addProject (lines 158-161): append the freshly stamped record.  The
`uid()` value and the creation timestamp are inputs of the model. -/
def addProject (prev : List Project) (uid createdAt : String)
    (p : ProjectInput) : List Project :=
  prev ++ [newProject uid createdAt p]

/-- A patch passed to updateProject; only the fields the UI actually patches
(title, description, deadline, status, targetWords, archived).  `none` means
the key is absent from the patch object. -/
structure ProjectPatch where
  title : Option String
  description : Option String
  deadline : Option String
  status : Option String
  targetWords : Option Int
  archived : Option Bool
deriving DecidableEq

/-- The JavaScript object merge `{...p, ...patch}`: patch keys that are
present replace the fields of the record. -/
def applyPatch (p : Project) (q : ProjectPatch) : Project :=
  { id := p.id
    title := q.title.getD p.title
    description := match q.description with
      | some d => some d
      | none => p.description
    targetWords := q.targetWords.getD p.targetWords
    deadline := match q.deadline with
      | some d => some d
      | none => p.deadline
    status := q.status.getD p.status
    createdAt := p.createdAt
    archived := match q.archived with
      | some b => some b
      | none => p.archived }

/-- updateProject (line 162): `prev.map(p => p.id===id ? {...p,...patch} : p)`. -/
def updateProject (prev : List Project) (id : String) (q : ProjectPatch) :
    List Project :=
  prev.map fun p => if p.id = id then applyPatch p q else p

/-- removeProject (line 163): `prev.filter(p => p.id !== id)`. -/
def removeProject (prev : List Project) (id : String) : List Project :=
  prev.filter fun p => p.id ≠ id

/-- The `{archived: true}` patch sent by the archive button (line 519). -/
def archiveTruePatch : ProjectPatch :=
  { title := none, description := none, deadline := none, status := none,
    targetWords := none, archived := some true }

/-- The active project list rendered by the Projects card (line 371) and the
project selector of the timer (line 290): `projects.filter(p => !p.archived)`.
`!undefined` and `!false` are true, `!true` is false. -/
def activeProjects (ps : List Project) : List Project :=
  ps.filter fun p => !(p.archived.getD false)

/-- The payload LogSessionDialog passes to onSave (line 616):
`{ projectId: projectId || undefined, date, minutes, words, notes }`. -/
structure SessionInput where
  projectId : Option String
  date : String
  minutes : Int
  words : Int
  notes : String
deriving DecidableEq

/-- The record appended by logSession (line 165): `{ ...s, id: uid() }`. -/
def mkSession (uid : String) (s : SessionInput) : Session :=
  { id := uid
    projectId := s.projectId
    date := s.date
    minutes := s.minutes
    words := s.words
    notes := s.notes }

/-- logSession (line 165): `setSessions(prev => [...prev, {...s, id: uid()}])`;
it always appends. -/
def logSession (prev : List Session) (uid : String) (s : SessionInput) :
    List Session :=
  prev ++ [mkSession uid s]

/-- deleteSession (line 166): `prev.filter(s => s.id !== id)`. -/
def deleteSession (prev : List Session) (id : String) : List Session :=
  prev.filter fun s => s.id ≠ id

/-- Outcome of LogSessionDialog.save: rejected with the "Add minutes or
words" toast (nothing written), or saved with the new session list. -/
inductive SaveResult where
  | rejected
  | saved (sessions : List Session)
deriving DecidableEq

/-- LogSessionDialog.save (lines 614-619), the only path into logSession:
`if (minutes <= 0 && words <= 0) { toast("Add minutes or words"); return; }
onSave({...})`. -/
def dialogSave (prev : List Session) (uid : String) (s : SessionInput) :
    SaveResult :=
  if s.minutes ≤ 0 ∧ s.words ≤ 0 then .rejected
  else .saved (logSession prev uid s)

/-- The helper `sum(arr, sel)` (line 45): `arr.reduce((a,b) => a+sel(b), 0)`. -/
def sum {α : Type} (arr : List α) (sel : α → Int) : Int :=
  arr.foldl (fun a b => a + sel b) 0

/-- The helper `clamp(n, min, max)` (line 44):
`Math.max(min, Math.min(max, n))`. -/
def clamp (n lo hi : Int) : Int :=
  max lo (min hi n)

/-- todaysWords (line 139): `sum(sessions.filter(s => s.date===today),
s => s.words)`, where `today` is the current ISO calendar-day string. -/
def todaysWords (sessions : List Session) (today : String) : Int :=
  sum (sessions.filter fun s => s.date == today) (fun s => s.words)

/-- Summed words of one day, as in the streak and trend loops (lines 141,146):
`sum(sessions.filter(x => x.date===d), x => x.words)`. -/
def daySum (sessions : List Session) (d : String) : Int :=
  sum (sessions.filter fun x => x.date == d) (fun x => x.words)

/-- The streak loop body (line 141): starting at offset `i` with `fuel`
iterations left, count consecutive days with positive summed words, stopping
at the first day without.  `dayStr i` stands for
`daysAgo(i).toISOString().slice(0,10)`. -/
def streakAux (sessions : List Session) (dayStr : Nat → String) :
    Nat → Nat → Nat
  | _, 0 => 0
  | i, fuel + 1 =>
    if 0 < daySum sessions (dayStr i) then
      streakAux sessions dayStr (i + 1) fuel + 1
    else 0

/-- streak (lines 140-143): `for (i=0; i<365; i++)` walking backward from
today (offset 0), counting while the summed words of the day are positive and
breaking at the first day that is not. -/
def streak (sessions : List Session) (dayStr : Nat → String) : Nat :=
  streakAux sessions dayStr 0 365

/-- totalWords (line 150): `sum(sessions, s => s.words)`. -/
def totalWords (sessions : List Session) : Int :=
  sum sessions (fun s => s.words)

/-- JavaScript `x || d` on an integer: `x` is falsy exactly when it is 0. -/
def jsOrZero (x d : Int) : Int :=
  if x = 0 then d else x

/-- JavaScript `Math.round`: round half toward positive infinity, i.e.
`⌊x + 1/2⌋`. -/
def jsRound (q : ℚ) : Int :=
  ⌊q + 1 / 2⌋

/-- wph (lines 151-153): `const mins = sum(sessions, s => s.minutes) || 1;
Math.round((totalWords / mins) * 60)`.  The arithmetic is exact here: all
quantities are small integers, so the double-precision evaluation in the
source computes the same rational value. -/
def wph (sessions : List Session) : Int :=
  jsRound ((totalWords sessions : ℚ) /
    (jsOrZero (sum sessions (fun s => s.minutes)) 1 : ℚ) * 60)

/-- Modelled from the spec words for comparison with `wph` (claim C7):
"total minutes ever logged (floor of 1 to avoid division by zero) drives
round(totalWords / totalMinutes * 60)" — i.e. the total minutes are floored
at 1 (`max 1`) before dividing. -/
def wphClaimed (sessions : List Session) : Int :=
  jsRound ((totalWords sessions : ℚ) /
    (max 1 (sum sessions (fun s => s.minutes)) : ℚ) * 60)

/-- The timer state (lines 194-201): the running flag, the countdown in
seconds, the seed recorded for the elapsed-time default, the auto-open-log
flag, and the remembered custom minutes. -/
structure TimerState where
  timerRunning : Bool
  timerSeconds : Int
  startSeconds : Int
  autoOpenLog : Bool
  customMins : Int
deriving DecidableEq

/-- resetTimer (line 216): `setTimerRunning(false);
startSecondsRef.current = mins*60; setTimerSeconds(mins*60)`. -/
def resetTimer (t : TimerState) (mins : Int) : TimerState :=
  { t with timerRunning := false, startSeconds := mins * 60,
           timerSeconds := mins * 60 }

/-- The one-second countdown step (line 207): `setTimerSeconds(s => s-1)`. -/
def tick (t : TimerState) : TimerState :=
  { t with timerSeconds := t.timerSeconds - 1 }

/-- The expiry effect (lines 212-214): when the countdown reaches zero, stop,
pin the countdown at zero and raise the open-log flag. -/
def expiryEffect (t : TimerState) : TimerState :=
  if t.timerSeconds ≤ 0 then
    { t with timerRunning := false, timerSeconds := 0, autoOpenLog := true }
  else t

/-- The open-log signal handed to LogSessionDialog (line 333):
`openExternally = autoOpenLog && timerSeconds === 0`. -/
def openExternally (t : TimerState) : Bool :=
  t.autoOpenLog && (t.timerSeconds == 0)

/-- The minutes computed by the custom Set button (lines 312-313):
`const n = parseInt(customMinsText, 10);
const safe = isNaN(n) ? customMins : Math.max(1, n)`.
`none` stands for a NaN parse. -/
def setSafeMins (customMins : Int) (parsed : Option Int) : Int :=
  match parsed with
  | none => customMins
  | some n => max 1 n

/-- A sequence of logSession calls applied in order, each supplying its fresh
id and payload. -/
def applyLogs (prev : List Session)
    (calls : List (String × SessionInput)) : List Session :=
  calls.foldl (fun acc c => logSession acc c.1 c.2) prev

/-- The four top-level state atoms owned by the component (lines 72-75). -/
structure AppState where
  projects : List Project
  sessions : List Session
  ideas : List Idea
  dailyGoal : Int
deriving DecidableEq

/-- The initial state when the local cache holds nothing usable
(lines 62-70): empty lists and dailyGoal 500. -/
def initState : AppState :=
  { projects := [], sessions := [], ideas := [], dailyGoal := 500 }

/-- The onBlur handler of the daily-goal input (lines 253-257):
`const val = parseInt(dailyGoalText, 10);
setDailyGoal(isNaN(val) ? 0 : clamp(val, 0, 100000))`.
`none` stands for a NaN parse. -/
def dailyGoalBlur (st : AppState) (parsed : Option Int) : AppState :=
  { st with dailyGoal := match parsed with
      | none => 0
      | some v => clamp v 0 100000 }

/-- The state transition of a session-dialog save: the session list is
replaced only when validation passes. -/
def sessionSaveStep (st : AppState) (uid : String) (inp : SessionInput) :
    AppState :=
  match dialogSave st.sessions uid inp with
  | .rejected => st
  | .saved l => { st with sessions := l }

/-- States reachable from the default initial state through the UI input
boundaries: the daily-goal blur handler, the session-log dialog (whose
minutes and words come from unclamped `parseInt`, lines 636 and 642), the
new-project dialog (non-blank title required, line 460; targetWords from
unclamped `parseInt`, line 481), project patches (edit dialog, inline
target edit, status select, archive), project removal and session
deletion. -/
inductive Reachable : AppState → Prop where
  | init : Reachable initState
  | goalBlur {st : AppState} (parsed : Option Int) :
      Reachable st → Reachable (dailyGoalBlur st parsed)
  | sessionSave {st : AppState} (uid : String) (inp : SessionInput) :
      Reachable st → Reachable (sessionSaveStep st uid inp)
  | projectCreate {st : AppState} (uid ts : String) (inp : ProjectInput) :
      inp.title.trim ≠ "" → Reachable st →
      Reachable { st with projects := addProject st.projects uid ts inp }
  | projectUpdate {st : AppState} (id : String) (q : ProjectPatch) :
      Reachable st →
      Reachable { st with projects := updateProject st.projects id q }
  | projectRemove {st : AppState} (id : String) :
      Reachable st →
      Reachable { st with projects := removeProject st.projects id }
  | sessionDelete {st : AppState} (id : String) :
      Reachable st →
      Reachable { st with sessions := deleteSession st.sessions id }

/-- A well-formed in-memory bundle whose daily goal is 0 — reachable, since
the goal input accepts 0 (and a NaN parse is mapped to 0, line 255). -/
def c1ZeroBundle : JBundle :=
  { projects := .arr [], sessions := .arr [], ideas := .arr [],
    dailyGoal := .num 0 }

/-- A typical bundle with one project and a nonzero daily goal. -/
def c1SampleBundle : JBundle :=
  { projects := .arr [.obj [("id", .str "p1"), ("title", .str "Novel")]]
    sessions := .arr []
    ideas := .arr []
    dailyGoal := .num 700 }

/-- A session input with negative minutes and positive words: both numeric
fields come from unclamped parseInt (lines 636 and 642), and the save guard
only rejects when both are nonpositive. -/
def c3NegInput : SessionInput :=
  { projectId := none, date := "2026-10-11", minutes := -5, words := 100,
    notes := "" }

/-- A remote document with three projects and dailyGoal 700, as in the spec
example for the sign-in load. -/
def c5Cloud : Json :=
  .obj [("projects", .arr [.obj [("id", .str "r1")],
                           .obj [("id", .str "r2")],
                           .obj [("id", .str "r3")]]),
        ("sessions", .arr []),
        ("ideas", .arr []),
        ("dailyGoal", .num 700)]

/-- A successful read returning the row whose data column is `c5Cloud`. -/
def c5Res : QueryRes :=
  { row := some (.obj [("data", c5Cloud)]), errorCode := none }

/-- A local bundle holding one local-only project, to be discarded by the
wholesale replacement. -/
def c5Local : JBundle :=
  { projects := .arr [.obj [("id", .str "localOnly")]]
    sessions := .arr []
    ideas := .arr []
    dailyGoal := .num 500 }

/-- Sessions with positive words on the days at offsets 0 and 1 only. -/
def c6Sessions : List Session :=
  [{ id := "a", projectId := none, date := "2026-10-11", minutes := 30,
     words := 100, notes := "" },
   { id := "b", projectId := none, date := "2026-10-10", minutes := 20,
     words := 50, notes := "" }]

/-- A concrete day-string assignment: offsets 0 and 1 are the two days with
sessions, every later offset is a day with no sessions. -/
def c6Day (i : Nat) : String :=
  if i = 0 then "2026-10-11" else if i = 1 then "2026-10-10" else "earlier"

/-- One logged session with negative minutes and positive words (reachable
through the session dialog, which only rejects when both are nonpositive). -/
def c7Neg : List Session :=
  [{ id := "x", projectId := none, date := "2026-10-11", minutes := -5,
     words := 100, notes := "" }]

/-- Sessions totaling 1000 words over 100 minutes. -/
def c7Sample : List Session :=
  [{ id := "x1", projectId := none, date := "2026-10-11", minutes := 60,
     words := 600, notes := "" },
   { id := "x2", projectId := none, date := "2026-10-11", minutes := 40,
     words := 400, notes := "" }]

/-- Two session-log calls, one for today and one for another day. -/
def c8Calls : List (String × SessionInput) :=
  [("u1", { projectId := none, date := "2026-10-11", minutes := 30,
            words := 200, notes := "" }),
   ("u2", { projectId := none, date := "2026-10-10", minutes := 20,
            words := 50, notes := "" })]

/-- The same two calls in the opposite order. -/
def c8CallsSwapped : List (String × SessionInput) :=
  [("u2", { projectId := none, date := "2026-10-10", minutes := 20,
            words := 50, notes := "" }),
   ("u1", { projectId := none, date := "2026-10-11", minutes := 30,
            words := 200, notes := "" })]

/-- The project input of the spec example: `{title:"Novel", targetWords:5000}`. -/
def c9Input : ProjectInput :=
  { title := "Novel", description := none, targetWords := 5000,
    deadline := none, status := none }

/-- A valid session input: 30 minutes, 450 words. -/
def c2Input : SessionInput :=
  { projectId := none, date := "2026-10-11", minutes := 30, words := 450,
    notes := "" }

/-- The reducer `sum` agrees with mapping the selector and summing. -/
theorem sum_eq_map_sum {α : Type} (arr : List α) (sel : α → Int) :
    sum arr sel = (arr.map sel).sum := by
  suffices h : ∀ a : Int, arr.foldl (fun x b => x + sel b) a
      = a + (arr.map sel).sum by
    simpa [sum] using h 0
  induction arr with
  | nil => intro a; simp
  | cons x xs ih =>
    intro a
    simp only [List.foldl_cons, List.map_cons, List.sum_cons, ih]
    omega

/-- The reducer `sum` over a cons. -/
theorem sum_cons {α : Type} (a : α) (l : List α) (sel : α → Int) :
    sum (a :: l) sel = sel a + sum l sel := by
  simp [sum_eq_map_sum]

/-- The reducer `sum` over an append. -/
theorem sum_append {α : Type} (l₁ l₂ : List α) (sel : α → Int) :
    sum (l₁ ++ l₂) sel = sum l₁ sel + sum l₂ sel := by
  simp [sum_eq_map_sum]

/-- The reducer `sum` is invariant under permutation of the list. -/
theorem sum_perm {α : Type} {l₁ l₂ : List α} (h : l₁.Perm l₂)
    (sel : α → Int) : sum l₁ sel = sum l₂ sel := by
  rw [sum_eq_map_sum, sum_eq_map_sum]
  exact (h.map sel).sum_eq

/-- The reducer `sum` of a pointwise nonnegative selector is nonnegative. -/
theorem sum_nonneg {α : Type} (l : List α) (sel : α → Int)
    (h : ∀ a ∈ l, 0 ≤ sel a) : 0 ≤ sum l sel := by
  rw [sum_eq_map_sum]
  refine List.sum_nonneg ?_
  intro x hx
  obtain ⟨a, ha, rfl⟩ := List.mem_map.mp hx
  exact h a ha

/-- The session-dialog save step never touches the daily goal. -/
theorem sessionSaveStep_dailyGoal (st : AppState) (uid : String)
    (inp : SessionInput) :
    (sessionSaveStep st uid inp).dailyGoal = st.dailyGoal := by
  unfold sessionSaveStep
  cases dialogSave st.sessions uid inp <;> rfl

/-- The streak loop never counts more days than it has fuel. -/
theorem streakAux_le (ss : List Session) (ds : Nat → String)
    (i fuel : Nat) : streakAux ss ds i fuel ≤ fuel := by
  induction fuel generalizing i with
  | zero => simp [streakAux]
  | succ f ih =>
    simp only [streakAux]
    split
    · exact Nat.succ_le_succ (ih (i + 1))
    · exact Nat.zero_le _

/-- Every day counted by the streak loop has positive summed words. -/
theorem streakAux_pos (ss : List Session) (ds : Nat → String)
    (i fuel : Nat) :
    ∀ j, j < streakAux ss ds i fuel → 0 < daySum ss (ds (i + j)) := by
  induction fuel generalizing i with
  | zero => intro j hj; simp [streakAux] at hj
  | succ f ih =>
    intro j hj
    simp only [streakAux] at hj
    by_cases hc : 0 < daySum ss (ds i)
    · rw [if_pos hc] at hj
      cases j with
      | zero => simpa using hc
      | succ k =>
        have hk := ih (i + 1) k (by omega)
        have : i + (k + 1) = i + 1 + k := by omega
        rw [this]
        exact hk
    · rw [if_neg hc] at hj
      omega

/-- When the streak loop stops with fuel to spare, the day right after the
counted ones does not have positive summed words. -/
theorem streakAux_stop (ss : List Session) (ds : Nat → String)
    (i fuel : Nat) (h : streakAux ss ds i fuel < fuel) :
    daySum ss (ds (i + streakAux ss ds i fuel)) ≤ 0 := by
  induction fuel generalizing i with
  | zero => omega
  | succ f ih =>
    by_cases hc : 0 < daySum ss (ds i)
    · simp only [streakAux, if_pos hc] at h ⊢
      have hlt : streakAux ss ds (i + 1) f < f := by omega
      have := ih (i + 1) hlt
      have harith : i + (streakAux ss ds (i + 1) f + 1)
          = i + 1 + streakAux ss ds (i + 1) f := by omega
      rw [harith]
      exact this
    · simp only [streakAux, if_neg hc]
      simpa using Int.not_lt.mp hc

/-- C2: a session-dialog save is rejected — with nothing written, the state
unchanged — exactly when both minutes and words are nonpositive; otherwise
the session, stamped with the fresh id, is appended at the end of the
list. -/
theorem c2_logSession_validation (prev : List Session) (uid : String)
    (inp : SessionInput) :
    (dialogSave prev uid inp = SaveResult.rejected ↔
      inp.minutes ≤ 0 ∧ inp.words ≤ 0) ∧
    (∀ st : AppState, inp.minutes ≤ 0 ∧ inp.words ≤ 0 →
      sessionSaveStep st uid inp = st) ∧
    (¬(inp.minutes ≤ 0 ∧ inp.words ≤ 0) →
      dialogSave prev uid inp =
        SaveResult.saved (prev ++ [mkSession uid inp]) ∧
      (mkSession uid inp).id = uid) := by
  refine ⟨⟨?_, ?_⟩, ?_, ?_⟩
  · intro h
    by_contra hc
    simp [dialogSave, hc] at h
  · intro h
    simp [dialogSave, h]
  · intro st h
    simp [sessionSaveStep, dialogSave, h]
  · intro h
    exact ⟨by simp [dialogSave, h, logSession], rfl⟩

/-- Witness for C2 at a concrete valid input: 30 minutes and 450 words are
not both nonpositive, and the save appends the stamped session. -/
theorem c2_logSession_validation_witness :
    ¬(c2Input.minutes ≤ 0 ∧ c2Input.words ≤ 0) ∧
    dialogSave [] "id1" c2Input =
      SaveResult.saved [mkSession "id1" c2Input] :=
  ⟨by decide, ((c2_logSession_validation [] "id1" c2Input).2.2 (by decide)).1⟩

/-- C4: for every timer state and every configured minutes value of at least
one (all reset call sites pass 25, 50, 15, or a custom value already clamped
to at least 1, and the Set action keeps that clamp), a reset leaves the timer
not running with the countdown reseeded to the configured minutes, and the
open-log signal raised at expiry (autoOpenLog combined with a zero countdown,
line 333) becomes false. -/
theorem c4_resetTimer (t : TimerState) (mins : Int) (h : 1 ≤ mins) :
    (resetTimer t mins).timerRunning = false ∧
    (resetTimer t mins).timerSeconds = mins * 60 ∧
    openExternally (resetTimer t mins) = false ∧
    (∀ cm parsed, 1 ≤ cm → 1 ≤ setSafeMins cm parsed) := by
  refine ⟨rfl, rfl, ?_, ?_⟩
  · have hne : (mins * 60 == (0 : Int)) = false := by
      rw [beq_eq_false_iff_ne]
      omega
    simp [openExternally, resetTimer, hne]
  · intro cm parsed hcm
    cases parsed with
    | none => exact hcm
    | some n => exact le_max_left 1 n

/-- Witness for C4: a timer that has just expired (flag raised, signal true)
is reset to 25 minutes, and the signal becomes false. -/
theorem c4_resetTimer_witness :
    (1 : Int) ≤ 25 ∧
    openExternally (expiryEffect
      { timerRunning := true, timerSeconds := 0, startSeconds := 1500,
        autoOpenLog := false, customMins := 25 }) = true ∧
    openExternally (resetTimer (expiryEffect
      { timerRunning := true, timerSeconds := 0, startSeconds := 1500,
        autoOpenLog := false, customMins := 25 }) 25) = false :=
  ⟨by decide, by decide,
    (c4_resetTimer (expiryEffect
      { timerRunning := true, timerSeconds := 0, startSeconds := 1500,
        autoOpenLog := false, customMins := 25 }) 25 (by decide)).2.2.1⟩

/-- C9: addProject always succeeds, appending a record that carries the
input fields together with the supplied fresh id and creation timestamp and
with status forced to Drafting regardless of any status in the input; the
new record is in the active project list, and after the archive patch is
applied to its id no project with that id remains in the active list. -/
theorem c9_addProject (prev : List Project) (uid ts : String)
    (p : ProjectInput) :
    addProject prev uid ts p = prev ++ [newProject uid ts p] ∧
    (newProject uid ts p).status = "Drafting" ∧
    (newProject uid ts p).id = uid ∧
    (newProject uid ts p).createdAt = ts ∧
    (newProject uid ts p).title = p.title ∧
    (newProject uid ts p).targetWords = p.targetWords ∧
    newProject uid ts p ∈ activeProjects (addProject prev uid ts p) ∧
    (∀ q ∈ activeProjects
        (updateProject (addProject prev uid ts p) uid archiveTruePatch),
      q.id ≠ uid) := by
  refine ⟨rfl, rfl, rfl, rfl, rfl, rfl, ?_, ?_⟩
  · simp [activeProjects, addProject, List.mem_filter, newProject]
  · intro q hq heq
    simp only [activeProjects, List.mem_filter] at hq
    obtain ⟨hmem, hpred⟩ := hq
    simp only [updateProject, List.mem_map] at hmem
    obtain ⟨r, _, hfr⟩ := hmem
    by_cases hr : r.id = uid
    · rw [if_pos hr] at hfr
      rw [← hfr] at hpred
      simp [applyPatch, archiveTruePatch] at hpred
    · rw [if_neg hr] at hfr
      rw [← hfr] at heq
      exact hr heq

/-- Witness for C9 at the spec example input {title Novel, targetWords 5000}:
the created project has status Drafting, appears in the active list, and
archiving it empties the active list. -/
theorem c9_addProject_witness :
    (newProject "p1" "2026-10-11T00:00:00.000Z" c9Input).status =
      "Drafting" ∧
    newProject "p1" "2026-10-11T00:00:00.000Z" c9Input ∈
      activeProjects (addProject [] "p1" "2026-10-11T00:00:00.000Z"
        c9Input) ∧
    activeProjects (updateProject
      (addProject [] "p1" "2026-10-11T00:00:00.000Z" c9Input) "p1"
      archiveTruePatch) = [] :=
  ⟨(c9_addProject [] "p1" "2026-10-11T00:00:00.000Z" c9Input).2.1,
   (c9_addProject [] "p1" "2026-10-11T00:00:00.000Z" c9Input).2.2.2.2.2.2.1,
   by decide⟩

/-- C10: startup is total for every cache content — an absent or unparsable
slot yields the empty parsed object, and the initial state falls back per
missing field to the empty lists and to dailyGoal 500. -/
theorem c10_startup_defaults (c : Cache) :
    (c = Cache.absent ∨ c = Cache.malformed →
      bundleFromJson (loadStore c) = emptyBundle) ∧
    ((loadStore c).getField "projects" = none →
      (bundleFromJson (loadStore c)).projects = Json.arr []) ∧
    ((loadStore c).getField "sessions" = none →
      (bundleFromJson (loadStore c)).sessions = Json.arr []) ∧
    ((loadStore c).getField "ideas" = none →
      (bundleFromJson (loadStore c)).ideas = Json.arr []) ∧
    ((loadStore c).getField "dailyGoal" = none →
      (bundleFromJson (loadStore c)).dailyGoal = Json.num 500) := by
  refine ⟨?_, ?_, ?_, ?_, ?_⟩
  · rintro (rfl | rfl) <;> rfl
  all_goals intro h
  all_goals simp [bundleFromJson, h, jsOr]

/-- Witness for C10: an unparsable cache slot produces the default initial
state. -/
theorem c10_startup_defaults_witness :
    bundleFromJson (loadStore Cache.malformed) = emptyBundle :=
  (c10_startup_defaults Cache.malformed).1 (Or.inr rfl)

/-- C1 counterexample: export followed by import is not the identity on
every bundle — a bundle whose daily goal is 0 comes back with daily goal 500,
because the import setter uses `d.dailyGoal || 500` and 0 is falsy. -/
theorem c1_round_trip_counterexample :
    importJSON (exportJSON c1ZeroBundle) ≠ c1ZeroBundle := by
  intro h
  have h2 : Json.num 500 = Json.num 0 := congrArg JBundle.dailyGoal h
  simp at h2

/-- C1 (amended): for every bundle whose three collections are arrays and
whose daily goal is a nonzero number, exporting to JSON and importing the
exact content yields an identical in-memory state; the single exception is a
daily goal of 0, which import replaces by 500. -/
theorem c1_round_trip (b : JBundle)
    (hp : b.projects.isArr = true) (hs : b.sessions.isArr = true)
    (hi : b.ideas.isArr = true)
    (hd : ∃ n : Int, n ≠ 0 ∧ b.dailyGoal = Json.num n) :
    importJSON (exportJSON b) = b := by
  obtain ⟨bp, bs, bi, bd⟩ := b
  obtain ⟨n, hn, hdg⟩ := hd
  simp only at hdg
  subst hdg
  have hnb : (n != 0) = true := by simpa using hn
  cases bp with
  | arr ps =>
    cases bs with
    | arr ss =>
      cases bi with
      | arr is =>
        simp [importJSON, bundleFromJson, exportJSON, Json.getField,
          assocFind, jsOr, truthy, hnb]
      | _ => simp [Json.isArr] at hi
    | _ => simp [Json.isArr] at hs
  | _ => simp [Json.isArr] at hp

/-- Witness for C1 at a bundle with one project and daily goal 700. -/
theorem c1_round_trip_witness :
    c1SampleBundle.projects.isArr = true ∧
    (∃ n : Int, n ≠ 0 ∧ c1SampleBundle.dailyGoal = Json.num n) ∧
    importJSON (exportJSON c1SampleBundle) = c1SampleBundle :=
  ⟨rfl, ⟨700, by decide, rfl⟩,
    c1_round_trip c1SampleBundle rfl rfl rfl ⟨700, by decide, rfl⟩⟩

/-- C5: the sign-in load consumes the one read result as follows — an error
other than the no-matching-row code PGRST116 is only logged and leaves local
state unchanged with no remote write; a found object-like document replaces
local state wholesale (the result does not depend on the previous local
state); a missing document leads to the empty initial bundle being upserted
remotely with local state untouched. -/
theorem c5_cloudLoad (localState : JBundle) (res : QueryRes) :
    (∀ c, res.errorCode = some c → c ≠ "PGRST116" →
      cloudLoad localState res = (localState, CloudEffect.noWrite)) ∧
    (∀ cloud, (res.errorCode = none ∨ res.errorCode = some "PGRST116") →
      rowData res = some cloud → isObjectLike cloud = true →
      cloudLoad localState res =
        (bundleFromJson cloud, CloudEffect.noWrite)) ∧
    ((res.errorCode = none ∨ res.errorCode = some "PGRST116") →
      rowData res = none →
      cloudLoad localState res = (localState, CloudEffect.upsertEmpty)) := by
  refine ⟨?_, ?_, ?_⟩
  · intro c hc hne
    simp [cloudLoad, hc, hne]
  · rintro cloud (he | he) hdata hobj <;>
      simp [cloudLoad, he, hdata, hobj]
  · rintro (he | he) hdata <;>
      simp [cloudLoad, he, hdata]

/-- Witness for C5: a found three-project document with daily goal 700
replaces a local bundle holding a local-only project, with no remote
write. -/
theorem c5_cloudLoad_witness :
    rowData c5Res = some c5Cloud ∧
    cloudLoad c5Local c5Res = (bundleFromJson c5Cloud, CloudEffect.noWrite) ∧
    (bundleFromJson c5Cloud).dailyGoal = Json.num 700 :=
  ⟨rfl,
   (c5_cloudLoad c5Local c5Res).2.1 c5Cloud (Or.inl rfl) rfl rfl,
   rfl⟩

/-- C3 counterexample: the input boundaries do not keep minutes, words and
targetWords nonnegative — logging a session with minutes -5 and words 100
passes the save guard (which only rejects when both are nonpositive) and
reaches a state holding a session with negative minutes. -/
theorem c3_clamping_counterexample :
    ¬ (∀ st, Reachable st →
        (∀ p ∈ st.projects, 0 ≤ p.targetWords) ∧
        (∀ s ∈ st.sessions, 0 ≤ s.minutes ∧ 0 ≤ s.words) ∧
        0 ≤ st.dailyGoal ∧ st.dailyGoal ≤ 100000) := by
  intro h
  have hr : Reachable (sessionSaveStep initState "s1" c3NegInput) :=
    Reachable.sessionSave "s1" c3NegInput Reachable.init
  have hs := (h _ hr).2.1 (mkSession "s1" c3NegInput) (by decide)
  exact absurd hs.1 (by decide)

/-- C3 (amended): in every state reachable through the input boundaries the
daily goal is an integer clamped to the range 0..100000; the session and
project numeric fields are unclamped parseInt values and may be negative
(a session is accepted whenever minutes and words are not both
nonpositive). -/
theorem c3_dailyGoal_invariant (st : AppState) (h : Reachable st) :
    0 ≤ st.dailyGoal ∧ st.dailyGoal ≤ 100000 := by
  induction h with
  | init => decide
  | goalBlur parsed _ ih =>
    cases parsed with
    | none => refine ⟨?_, ?_⟩ <;> norm_num [dailyGoalBlur]
    | some v =>
      constructor
      · exact le_max_left 0 _
      · have : min 100000 v ≤ 100000 := min_le_left _ _
        simp only [dailyGoalBlur, clamp]
        omega
  | sessionSave uid inp _ ih =>
    rw [sessionSaveStep_dailyGoal]
    exact ih
  | projectCreate uid ts inp _ _ ih => exact ih
  | projectUpdate id q _ ih => exact ih
  | projectRemove id _ ih => exact ih
  | sessionDelete id _ ih => exact ih

/-- Witness for C3 (amended) at the initial state. -/
theorem c3_dailyGoal_invariant_witness :
    Reachable initState ∧
    0 ≤ initState.dailyGoal ∧ initState.dailyGoal ≤ 100000 :=
  ⟨Reachable.init, c3_dailyGoal_invariant initState Reachable.init⟩

/-- C6: the streak never exceeds 365; every offset below the streak is a day
whose summed words are positive, and when the streak is below 365 the day
right after the counted ones does not have positive summed words — so the
streak is exactly the count of consecutive positive days walking backward
from today. -/
theorem c6_streak_characterization (ss : List Session)
    (ds : Nat → String) :
    streak ss ds ≤ 365 ∧
    (∀ i, i < streak ss ds → 0 < daySum ss (ds i)) ∧
    (streak ss ds < 365 → daySum ss (ds (streak ss ds)) ≤ 0) := by
  refine ⟨streakAux_le ss ds 0 365, ?_, ?_⟩
  · intro i hi
    have := streakAux_pos ss ds 0 365 i hi
    simpa using this
  · intro h
    have := streakAux_stop ss ds 0 365 h
    simpa using this

/-- Witness for C6 at the spec example: positive words only on the days at
offsets 0 and 1, nothing at offset 2, giving streak 2. -/
theorem c6_streak_characterization_witness :
    streak c6Sessions c6Day = 2 ∧
    0 < daySum c6Sessions (c6Day 1) ∧
    daySum c6Sessions (c6Day 2) ≤ 0 :=
  ⟨by decide,
   (c6_streak_characterization c6Sessions c6Day).2.1 1 (by decide),
   (c6_streak_characterization c6Sessions c6Day).2.2 (by decide)⟩

/-- C7 counterexample: on a session list with minutes -5 and words 100
(reachable, since the save guard accepts it), the code divides by the raw
total -5 — the `|| 1` fallback replaces only a zero total, it does not floor
the total at 1 — so the computed value differs from the spec formula. -/
theorem c7_wph_counterexample : wph c7Neg ≠ wphClaimed c7Neg := by
  have hs : sum c7Neg (fun s => s.minutes) = -5 := by simp [c7Neg, sum]
  have hw : totalWords c7Neg = 100 := by simp [c7Neg, totalWords, sum]
  have h1 : wph c7Neg = -1200 := by
    unfold wph
    rw [hs, hw]
    have hq : ((100 : Int) : ℚ) / ((jsOrZero (-5) 1 : Int) : ℚ) * 60 + 1 / 2
        = -2399 / 2 := by
      norm_num [jsOrZero]
    unfold jsRound
    rw [hq, Int.floor_eq_iff]
    constructor <;> norm_num
  have h2 : wphClaimed c7Neg = 6000 := by
    unfold wphClaimed
    rw [hs, hw]
    unfold jsRound
    rw [Int.floor_eq_iff]
    constructor <;> norm_num [max_def]
  rw [h1, h2]
  norm_num

/-- C7 (amended): whenever every logged minutes value is nonnegative, the
words-per-hour figure equals round(totalWords / totalMinutes * 60) with the
total minutes floored at 1; with integer word and minute totals the result
is always finite.  (In general the code substitutes 1 only for a zero
total.) -/
theorem c7_wph_formula (ss : List Session)
    (h : ∀ s ∈ ss, 0 ≤ s.minutes) :
    wph ss = wphClaimed ss := by
  unfold wph wphClaimed
  by_cases hz : sum ss (fun s => s.minutes) = 0
  · rw [hz]
    norm_num [jsOrZero]
  · have h0 : 0 ≤ sum ss (fun s => s.minutes) :=
      sum_nonneg ss _ h
    have h1 : (1 : Int) ≤ sum ss (fun s => s.minutes) := by omega
    have h1q : (1 : ℚ) ≤ ((sum ss fun s => s.minutes : Int) : ℚ) := by
      exact_mod_cast h1
    simp only [jsOrZero, if_neg hz, max_eq_right h1q]

/-- Witness for C7 at the spec example: 1000 words over 100 minutes give
words-per-hour 600. -/
theorem c7_wph_formula_witness :
    (∀ s ∈ c7Sample, 0 ≤ s.minutes) ∧ wph c7Sample = 600 :=
  ⟨by decide, (c7_wph_formula c7Sample (by decide)).trans (by
    have hs : sum c7Sample (fun s => s.minutes) = 100 := by
      simp [c7Sample, sum]
    have hw : totalWords c7Sample = 1000 := by
      simp [c7Sample, totalWords, sum]
    unfold wphClaimed
    rw [hs, hw]
    unfold jsRound
    rw [Int.floor_eq_iff]
    constructor <;> norm_num [max_def])⟩

/-- Through any sequence of logged sessions, the words of today accumulate:
appending the logged sessions adds exactly the words of the calls dated
today. -/
theorem applyLogs_todaysWords (today : String)
    (calls : List (String × SessionInput)) (init : List Session) :
    todaysWords (applyLogs init calls) today =
      todaysWords init today +
        sum (calls.filter fun c => c.2.date == today)
          (fun c => c.2.words) := by
  induction calls generalizing init with
  | nil => simp [applyLogs, sum]
  | cons c cs ih =>
    have step : applyLogs init (c :: cs)
        = applyLogs (logSession init c.1 c.2) cs := rfl
    rw [step, ih]
    have tw : todaysWords (logSession init c.1 c.2) today
        = todaysWords init today
          + (if c.2.date == today then c.2.words else 0) := by
      unfold todaysWords logSession
      rw [List.filter_append, sum_append]
      by_cases hc : (c.2.date == today) = true
      · simp [mkSession, hc, sum]
      · simp [mkSession, hc, sum]
    rw [tw, List.filter_cons]
    by_cases hc : (c.2.date == today) = true
    · rw [if_pos hc, if_pos hc, sum_cons]
      omega
    · rw [if_neg hc, if_neg hc]
      omega

/-- C8: for every sequence of logSession calls, the words of today equal the
previous value plus the summed words of exactly the calls dated today, and
the result is independent of the order of the calls. -/
theorem c8_todaysWords_order_independent (init : List Session)
    (calls : List (String × SessionInput)) (today : String) :
    todaysWords (applyLogs init calls) today =
      todaysWords init today +
        sum (calls.filter fun c => c.2.date == today)
          (fun c => c.2.words) ∧
    (∀ calls2, calls.Perm calls2 →
      todaysWords (applyLogs init calls) today =
        todaysWords (applyLogs init calls2) today) := by
  refine ⟨applyLogs_todaysWords today calls init, ?_⟩
  intro calls2 hperm
  rw [applyLogs_todaysWords today calls init,
    applyLogs_todaysWords today calls2 init]
  congr 1
  exact sum_perm (hperm.filter _) _

/-- Witness for C8: two concrete calls logged in either order give the same
words for today. -/
theorem c8_todaysWords_order_independent_witness :
    c8Calls.Perm c8CallsSwapped ∧
    todaysWords (applyLogs [] c8Calls) "2026-10-11" =
      todaysWords (applyLogs [] c8CallsSwapped) "2026-10-11" :=
  ⟨by decide,
   (c8_todaysWords_order_independent [] c8Calls "2026-10-11").2
     c8CallsSwapped (by decide)⟩

end WritersDashboard
